import Mathlib

/-!
Shallow embedding of the authentication subsystem of the `py_steam` package
(`src/py_steam/steamid.py`, `src/py_steam/utils.py`, `src/py_steam/client.py`,
`src/py_steam/exceptions.py`).

Python side effects are modelled by explicit state passing on `ClientState`;
HTTP traffic is modelled by a `Transport` oracle handed to the functions that
perform requests; raised exceptions become constructors of `LoginOutcome`.
-/

namespace PySteam

/-! ## steamid.py -/

/-- The fixed additive offset between SteamID64 and SteamID32
(`76561197960265728` in `steamid.py`). -/
def STEAM64_BASE : Nat := 76561197960265728

/-- Python `str.isdigit()`: true iff the string is nonempty and every character
is a decimal digit. -/
def isdigit (s : String) : Bool := !s.data.isEmpty && s.data.all Char.isDigit

/-- Python `int(value)` on a decimal digit string. -/
def strToNat (s : String) : Nat :=
  s.data.foldl (fun n c => n * 10 + (c.toNat - 48)) 0

/-- `steamid.extract_steamids`: `value = str(id)`; if the string is all digits,
branch on the magnitude of the number; otherwise return the `(0, 0)` sentinel.
The account id is an integer difference, hence `Int` (it goes negative for
inputs between `2^32` and `STEAM64_BASE`). -/
def extract_steamids (id : String) : Int × Int :=
  if isdigit id then
    let value : Nat := strToNat id
    if 0 < value ∧ value < 2 ^ 32 then
      ((value : Int) + (STEAM64_BASE : Int), (value : Int))
    else if value < 2 ^ 64 then
      ((value : Int), (value : Int) - (STEAM64_BASE : Int))
    else
      (0, 0)
  else
    (0, 0)

/-- `steamid.SteamID`: holds the 64-bit and 32-bit forms extracted from the
input token. -/
structure SteamID where
  steamid64 : Int
  accountid : Int
deriving Repr, DecidableEq

/-- `SteamID.__init__` on a string token. -/
def SteamID.ofString (id : String) : SteamID :=
  ⟨(extract_steamids id).1, (extract_steamids id).2⟩

/-! ## utils.py -/

/-- Lowercase hexadecimal digit for a value below 16 (`binascii.hexlify`
produces lowercase hex). -/
def hexChar (n : Nat) : Char :=
  if n < 10 then Char.ofNat (48 + n) else Char.ofNat (87 + n)

/-- `binascii.hexlify`: each byte becomes two lowercase hex characters,
high nibble first. -/
def hexlify (bytes : List Nat) : List Char :=
  bytes.foldr (fun b acc => hexChar (b / 16 % 16) :: hexChar (b % 16) :: acc) []

/-- `utils.generate_session_id`.

Modelled from the spec: `crypto.sha1_hash` (file `py_steam/crypto.py`, not
under `src/`) is the SHA-1 digest — 20 bytes — of its input, and
`os.urandom(32)` is 32 bytes of OS randomness.  The composition
`sha1_hash(urandom(32))` is therefore modelled as an oracle: the function
below receives the digest bytes and performs the remaining, in-repository
steps of `generate_session_id`: hexlify, truncate to 32 characters, decode
to a string. -/
def generate_session_id (digest : List Nat) : String :=
  ⟨(hexlify digest).take 32⟩

/-- A character is a lowercase hexadecimal digit. -/
def isLowerHexChar (c : Char) : Bool :=
  (('0' ≤ c ∧ c ≤ '9') ∨ ('a' ≤ c ∧ c ≤ 'f') : Bool)

/-- Python `needle in hay` on lists of characters. -/
def listContains (needle : List Char) : List Char → Bool
  | [] => needle.isEmpty
  | c :: rest => needle.isPrefixOf (c :: rest) || listContains needle rest

/-- Python substring test `needle in hay`. -/
def strContains (hay needle : String) : Bool :=
  listContains needle.data hay.data

/-! ## requests cookie jar

`requests.Session.cookies` is a cookie jar keyed by (name, domain); `set`
replaces any cookie with the same name and domain.  Path handling is not
exercised by the client (it never passes a path), so it is omitted. -/

/-- One HTTP cookie as the client uses it: name, value, domain, secure flag. -/
structure Cookie where
  name : String
  value : String
  domain : String
  secure : Bool
deriving Repr, DecidableEq

/-- The session's cookie jar. -/
abbrev CookieJar : Type := List Cookie

/-- `RequestsCookieJar.set(name, value, domain=…, secure=…)`: remove any
cookie with the same name and domain, then add the new cookie. -/
def CookieJar.set (jar : CookieJar) (name value domain : String) (secure : Bool) :
    CookieJar :=
  jar.filter (fun c => !(c.name == name && c.domain == domain))
    ++ [⟨name, value, domain, secure⟩]

/-! ## client.py data -/

/-- The three fixed domains of the replication loops in `WebClient.login`. -/
def loginDomains : List String :=
  ["store.steampowered.com", "help.steampowered.com", "steamcommunity.com"]

/-- The parsed JSON of the `oauth` field of a mobile login response
(`json.loads(login_response['oauth'])` in `MobileClient.__finalize_login`). -/
structure OAuthData where
  steamid : String
  oauth_token : String
deriving Repr, DecidableEq

/-- The decoded JSON body of a `/login/dologin/` response, with the fields
the client reads.  `oauth` is `none` when the field is absent or not valid
JSON (in which case `json.loads` raises). -/
structure LoginResponse where
  success : Bool
  login_complete : Bool
  captcha_needed : Bool
  captcha_gid : Int
  clear_password_field : Bool
  emailauth_needed : Bool
  emaildomain : String
  emailsteamid : String
  requires_twofactor : Bool
  message : String
  transfer_parameters_steamid : String
  oauth : Option OAuthData
deriving Repr, DecidableEq

/-- The decoded JSON body of a `/login/getrsakey/` response. -/
structure RsaResponse where
  publickey_mod : String
  publickey_exp : String
  timestamp : String
deriving Repr, DecidableEq

/-- What one HTTP POST did, as the model's oracle for `requests`:
either the request raised `requests.exceptions.RequestException`
(network error / timeout), or a response arrived with a status code that is
or is not `requests.codes.ok` and a body that decodes to JSON (`some`) or
does not (`none`, in which case `response.json()` raises). -/
inductive Transport (α : Type) where
  | netError : Transport α
  | response (statusOk : Bool) (body : Option α) : Transport α
deriving Repr, DecidableEq

/-- A transport-level failure: network error, non-2xx status, or
malformed JSON body. -/
def Transport.isFailure {α : Type} : Transport α → Bool
  | .netError => true
  | .response statusOk body => !statusOk || body.isNone

/-- The requests a login flow can issue, recorded for frame reasoning. -/
inductive Request where
  | getRsaKey
  | doLogin
deriving Repr, DecidableEq

/-- The outcome of `WebClient.login`: the normal return or the exception it
raises (`exceptions.py`).  `CaptchaRequiredLoginIncorrect` subclasses both
`CaptchaRequired` and `LoginIncorrect`. -/
inductive LoginOutcome where
  | success
  | httpError
  | captchaRequired (msg : String)
  | captchaRequiredLoginIncorrect (msg : String)
  | emailCodeRequired (msg : String)
  | twoFactorCodeRequired (msg : String)
  | tooManyLoginFailures (msg : String)
  | loginIncorrect (msg : String)
deriving Repr, DecidableEq

/-- The mutable attributes of a `WebClient` (and the `oauth_token` attribute
`MobileClient` adds).  The RSA key object itself is opaque to every claim, so
`key` only records presence (`__load_key` guards on `if not self.key`). -/
structure ClientState where
  username : String
  password : String
  key : Option Unit
  timestamp : String
  logged_on : Bool
  session_id : Option String
  captcha_gid : Int
  captcha_code : String
  email_domain : Option String
  steamid : Option SteamID
  cookies : CookieJar
  oauth_token : Option String
deriving Repr, DecidableEq

/-! ## client.py operations -/

/-- The cookie replication loop of `WebClient.login` (lines 238–240): iterate
over a snapshot `list(self.session.cookies)` of the jar and set each cookie's
name/value/secure onto each of the three fixed domains. -/
def copyCookies (jar : CookieJar) : CookieJar :=
  jar.foldl
    (fun acc c =>
      loginDomains.foldl (fun acc2 d => CookieJar.set acc2 c.name c.value d c.secure) acc)
    jar

/-- The second cookie loop of `WebClient.login` (lines 244–247): on each of
the three fixed domains set `Steam_Language`, `birthtime` (fixed `'-3333'`)
and `sessionid` (the freshly generated id).  `requests`' `set` defaults the
secure flag to `False`. -/
def setLoginCookies (jar : CookieJar) (language sessionId : String) : CookieJar :=
  loginDomains.foldl
    (fun acc d =>
      CookieJar.set
        (CookieJar.set
          (CookieJar.set acc "Steam_Language" language d false)
          "birthtime" "-3333" d false)
        "sessionid" sessionId d false)
    jar

/-- `WebClient.__send_login` stripped of payload construction (the payload
only feeds the HTTP request, which the `Transport` oracle abstracts): 2xx
with decodable JSON returns the body; a non-2xx status raises `HTTPError`;
`response.json()` on malformed JSON raises a `RequestException` subclass,
also re-raised as `HTTPError`. -/
def send_login (t : Transport LoginResponse) : Except Unit LoginResponse :=
  match t with
  | .netError => .error ()
  | .response statusOk body =>
    if statusOk then
      match body with
      | some j => .ok j
      | none => .error ()
    else
      .error ()

/-- `WebClient.get_rsa_key`: same transport handling as `__send_login`. -/
def get_rsa_key (t : Transport RsaResponse) : Except Unit RsaResponse :=
  match t with
  | .netError => .error ()
  | .response statusOk body =>
    if statusOk then
      match body with
      | some j => .ok j
      | none => .error ()
    else
      .error ()

/-- `WebClient.__load_key`: when no key is held, fetch the RSA key, store it
and its timestamp; record whether a `getrsakey` request was issued. -/
def load_key (st : ClientState) (rsaT : Transport RsaResponse) :
    Except Unit (ClientState × List Request) :=
  if st.key.isNone then
    match get_rsa_key rsaT with
    | .ok r => .ok ({ st with key := some (), timestamp := r.timestamp }, [.getRsaKey])
    | .error _ => .error ()
  else
    .ok (st, [])

/-- `WebClient.__finalize_login` (the `_WebClient`-mangled variant): derive
the identity from `transfer_parameters.steamid`. -/
def finalize_login_web (st : ClientState) (resp : LoginResponse) : ClientState :=
  { st with steamid := some (SteamID.ofString resp.transfer_parameters_steamid) }

/-- `MobileClient.__finalize_login` (the `_MobileClient`-mangled variant):
parse the `oauth` field as JSON and take `steamid` and `oauth_token` from it;
`none` when `login_response['oauth']` is absent or `json.loads` raises. -/
def finalize_login_mobile (st : ClientState) (resp : LoginResponse) :
    Option ClientState :=
  match resp.oauth with
  | some d =>
    some { st with
            steamid := some (SteamID.ofString d.steamid),
            oauth_token := some d.oauth_token }
  | none => none

/-- The classification part of `WebClient.login` (lines 232–277), entered
after `__send_login` returned a decoded response `resp`.  Returns the
outcome, the final state, and the request log accumulated so far. -/
def login_classify (st : ClientState) (resp : LoginResponse)
    (language newSessionId : String) (reqs : List Request) :
    LoginOutcome × ClientState × List Request :=
  if resp.success && resp.login_complete then
    let st := { st with logged_on := true, password := "", captcha_gid := -1, captcha_code := "" }
    let st := { st with cookies := copyCookies st.cookies }
    let st := { st with session_id := some newSessionId }
    let st := { st with cookies := setLoginCookies st.cookies language newSessionId }
    let st := finalize_login_web st resp
    (.success, st, reqs)
  else
    if resp.captcha_needed then
      let st := { st with captcha_gid := resp.captcha_gid, captcha_code := "" }
      if resp.clear_password_field then
        (.captchaRequiredLoginIncorrect resp.message, { st with password := "" }, reqs)
      else
        (.captchaRequired resp.message, st, reqs)
    else if resp.emailauth_needed then
      (.emailCodeRequired resp.message,
        { st with
            email_domain := some resp.emaildomain,
            steamid := some (SteamID.ofString resp.emailsteamid) }, reqs)
    else if resp.requires_twofactor then
      (.twoFactorCodeRequired resp.message, st, reqs)
    else if strContains resp.message "too many login failures" then
      (.tooManyLoginFailures resp.message, st, reqs)
    else
      (.loginIncorrect resp.message, { st with password := "" }, reqs)

/-- `WebClient.login`: store the credentials, return the session at once when
already logged on, otherwise resolve the captcha argument, load the RSA key,
send the login request and classify the response.  `rsaT` and `loginT` are
the transport oracles for the two possible HTTP requests and `newSessionId`
the value `generate_session_id()` would produce. -/
def login (st0 : ClientState)
    (username password captcha email_code twofactor_code language : String)
    (rsaT : Transport RsaResponse) (loginT : Transport LoginResponse)
    (newSessionId : String) :
    LoginOutcome × ClientState × List Request :=
  let st := { st0 with username := username, password := password }
  if st.logged_on then
    (.success, st, [])
  else
    -- captcha resolution (lines 227–228): the resolved answer only feeds the
    -- request payload, which the transport oracle abstracts.
    let _captcha := if captcha == "" && st.captcha_code != "" then st.captcha_code else captcha
    let _ := email_code
    let _ := twofactor_code
    match load_key st rsaT with
    | .error _ => (.httpError, st, [.getRsaKey])
    | .ok (st1, reqs) =>
      match send_login loginT with
      | .error _ => (.httpError, st1, reqs ++ [.doLogin])
      | .ok resp => login_classify st1 resp language newSessionId (reqs ++ [.doLogin])

/-- `MobileClient.login`.  `MobileClient` does not define `login`; it
inherits `WebClient.login`, whose calls to the double-underscore private
methods are name-mangled at compile time of `WebClient` to
`_WebClient__send_login` and `_WebClient__finalize_login`.  The
`_MobileClient`-mangled overrides are therefore never invoked by `login`,
so the inherited body runs the web variants unchanged. -/
def mobile_login (st0 : ClientState)
    (username password captcha email_code twofactor_code language : String)
    (rsaT : Transport RsaResponse) (loginT : Transport LoginResponse)
    (newSessionId : String) :
    LoginOutcome × ClientState × List Request :=
  login st0 username password captcha email_code twofactor_code language
    rsaT loginT newSessionId

/-! ## cli_login (the interactive retry loop) -/

/-- The argument variables of `cli_login`'s loop body. -/
structure CliArgs where
  username : String
  password : String
  captcha : String
  email_code : String
  twofactor_code : String
deriving Repr, DecidableEq

/-- The strings the `input()` prompts of `cli_login` would return, one oracle
per prompt. -/
structure CliPrompts where
  username : String
  password : String
  captcha : String
  email_code : String
  twofactor_code : String
deriving Repr, DecidableEq

/-- What one iteration of `cli_login`'s `while True` decides to do. -/
inductive CliAction where
  | done
  | propagate (o : LoginOutcome)
  | retry (a : CliArgs)
deriving Repr, DecidableEq

/-- One iteration of `cli_login`'s loop (lines 312–333): given the outcome of
`self.login`, return the session, let the exception propagate, or rebind the
argument variables and loop.  Python tries the `except` clauses in source
order — `LoginIncorrect` first — and `CaptchaRequiredLoginIncorrect` is a
subclass of `LoginIncorrect`, so it is caught by that first clause. -/
def cli_step (a : CliArgs) (o : LoginOutcome) (p : CliPrompts) : CliAction :=
  match o with
  | .success => .done
  | .loginIncorrect _ =>
    .retry { a with username := p.username, password := p.password }
  | .captchaRequiredLoginIncorrect _ =>
    .retry { a with username := p.username, password := p.password }
  | .captchaRequired _ => .retry { a with captcha := p.captcha }
  | .emailCodeRequired _ =>
    .retry { a with email_code := p.email_code, twofactor_code := "" }
  | .twoFactorCodeRequired _ =>
    .retry { a with email_code := "", twofactor_code := p.twofactor_code }
  | .tooManyLoginFailures m => .propagate (.tooManyLoginFailures m)
  | .httpError => .propagate .httpError

/-! ## Concrete fixtures (used by witnesses and counterexamples) -/

/-- A client that already holds an RSA key, is not logged on, and has some
prior session state. -/
def demoState : ClientState :=
  ⟨"olduser", "oldpass", some (), "ts", false, some "oldsid", 42, "oldcaptcha",
    none, none, [⟨"steamLoginSecure", "tok", "steamcommunity.com", true⟩], none⟩

/-- `demoState` after `login` stored the credentials `"u"` / `"pw"`. -/
def demoState1 : ClientState := { demoState with username := "u", password := "pw" }

/-- A successful web login response. -/
def respOK : LoginResponse :=
  ⟨true, true, false, -1, false, false, "", "", false, "", "76561198000000001", none⟩

/-- A failure response asking for a captcha, without `clear_password_field`. -/
def respCaptcha : LoginResponse :=
  ⟨false, false, true, 887987, false, false, "", "", false, "please solve", "", none⟩

/-- A successful transport carrying `respOK`. -/
def loginTok : Transport LoginResponse := .response true (some respOK)

/-- A successful transport for the RSA-key request. -/
def rsaTok : Transport RsaResponse := .response true (some ⟨"ffff", "11", "ts2"⟩)

/-! ## Helper lemmas -/

lemma login_run (st0 st1 : ClientState) (u p c e t lang sid : String)
    (rsaT : Transport RsaResponse) (loginT : Transport LoginResponse)
    (reqs : List Request) (resp : LoginResponse)
    (hlog : st0.logged_on = false)
    (hload : load_key { st0 with username := u, password := p } rsaT = .ok (st1, reqs))
    (hsend : send_login loginT = .ok resp) :
    login st0 u p c e t lang rsaT loginT sid
      = login_classify st1 resp lang sid (reqs ++ [.doLogin]) := by
  rw [hlog] at hload
  unfold login
  simp only [hlog, hload, hsend, Bool.false_eq_true, if_false]

lemma classify_success_eq (st : ClientState) (resp : LoginResponse)
    (lang sid : String) (reqs : List Request)
    (hs : resp.success = true) (hl : resp.login_complete = true) :
    login_classify st resp lang sid reqs =
      (.success,
       { st with logged_on := true, password := "", captcha_gid := -1, captcha_code := "",
                 cookies := setLoginCookies (copyCookies st.cookies) lang sid,
                 session_id := some sid,
                 steamid := some (SteamID.ofString resp.transfer_parameters_steamid) },
       reqs) := by
  unfold login_classify finalize_login_web
  simp [hs, hl]

lemma classify_captcha_eq (st : ClientState) (resp : LoginResponse)
    (lang sid : String) (reqs : List Request)
    (hs : resp.success = false) (hc : resp.captcha_needed = true) :
    login_classify st resp lang sid reqs =
      if resp.clear_password_field then
        (.captchaRequiredLoginIncorrect resp.message,
          { st with captcha_gid := resp.captcha_gid, captcha_code := "", password := "" },
          reqs)
      else
        (.captchaRequired resp.message,
          { st with captcha_gid := resp.captcha_gid, captcha_code := "" }, reqs) := by
  unfold login_classify
  simp only [hs, hc, Bool.false_and, Bool.false_eq_true, if_false, if_true]

lemma load_key_frame (st st1 : ClientState) (rsaT : Transport RsaResponse)
    (reqs : List Request)
    (h : load_key st rsaT = .ok (st1, reqs)) :
    st1.username = st.username ∧ st1.password = st.password
    ∧ st1.logged_on = st.logged_on ∧ st1.session_id = st.session_id
    ∧ st1.captcha_gid = st.captcha_gid ∧ st1.captcha_code = st.captcha_code
    ∧ st1.email_domain = st.email_domain ∧ st1.steamid = st.steamid
    ∧ st1.cookies = st.cookies ∧ st1.oauth_token = st.oauth_token := by
  unfold load_key at h
  split at h
  · cases hr : get_rsa_key rsaT with
    | ok r =>
      rw [hr] at h
      injection h with h'
      injection h' with h1 h2
      subst h1
      simp
    | error e => rw [hr] at h; cases h
  · injection h with h'
    injection h' with h1 h2
    subst h1
    simp

/-! ## Claims -/

/-- **C10**: calling `login` while already authenticated returns the session
at once: no RSA-key fetch, no login request, and the only state change is
that the stored username and password are overwritten with the new arguments
before the `logged_on` check. -/
theorem login_already_logged_on_frame (st0 : ClientState)
    (u p c e t lang sid : String) (rsaT : Transport RsaResponse)
    (loginT : Transport LoginResponse)
    (h : st0.logged_on = true) :
    login st0 u p c e t lang rsaT loginT sid
      = (.success, { st0 with username := u, password := p }, []) := by
  unfold login
  simp [h]

/-- Witness for **C10** at a concrete state. -/
theorem login_already_logged_on_frame_witness :
    ({ demoState with logged_on := true } : ClientState).logged_on = true
    ∧ login { demoState with logged_on := true } "u" "secret" "" "" "" "english"
        .netError .netError "sid"
      = (.success,
         { demoState with logged_on := true, username := "u", password := "secret" },
         []) :=
  ⟨rfl,
   login_already_logged_on_frame { demoState with logged_on := true }
     "u" "secret" "" "" "" "english" "sid" .netError .netError rfl⟩

/-- **C1**: a web login whose response has `success = true` and
`login_complete = true` yields `Success`, sets `logged_on`, clears the stored
password and captcha answer, resets `captcha_gid` to `-1`, and derives the
identity from `transfer_parameters.steamid`; for `"76561198000000001"` the
long identity is `76561198000000001` and the short identity `39734273`. -/
theorem web_login_success_finalize (st0 st1 : ClientState)
    (u p c e t lang sid : String)
    (rsaT : Transport RsaResponse) (loginT : Transport LoginResponse)
    (reqs : List Request) (resp : LoginResponse)
    (hlog : st0.logged_on = false)
    (hload : load_key { st0 with username := u, password := p } rsaT = .ok (st1, reqs))
    (hsend : send_login loginT = .ok resp)
    (hs : resp.success = true) (hl : resp.login_complete = true) :
    (login st0 u p c e t lang rsaT loginT sid).1 = .success
    ∧ (login st0 u p c e t lang rsaT loginT sid).2.1.logged_on = true
    ∧ (login st0 u p c e t lang rsaT loginT sid).2.1.password = ""
    ∧ (login st0 u p c e t lang rsaT loginT sid).2.1.captcha_code = ""
    ∧ (login st0 u p c e t lang rsaT loginT sid).2.1.captcha_gid = -1
    ∧ (login st0 u p c e t lang rsaT loginT sid).2.1.steamid
        = some (SteamID.ofString resp.transfer_parameters_steamid)
    ∧ (resp.transfer_parameters_steamid = "76561198000000001" →
        (login st0 u p c e t lang rsaT loginT sid).2.1.steamid
          = some ⟨76561198000000001, 39734273⟩) := by
  rw [login_run st0 st1 u p c e t lang sid rsaT loginT reqs resp hlog hload hsend,
    classify_success_eq st1 resp lang sid (reqs ++ [Request.doLogin]) hs hl]
  refine ⟨rfl, rfl, rfl, rfl, rfl, rfl, ?_⟩
  intro ht
  rw [ht]
  show some (SteamID.ofString "76561198000000001") = some ⟨76561198000000001, 39734273⟩
  decide

/-- Witness for **C1** at a concrete client state and response. -/
theorem web_login_success_finalize_witness :
    demoState.logged_on = false
    ∧ load_key demoState1 rsaTok = .ok (demoState1, [])
    ∧ send_login loginTok = .ok respOK
    ∧ respOK.success = true
    ∧ respOK.login_complete = true
    ∧ (login demoState "u" "pw" "" "" "" "english" rsaTok loginTok "sid").2.1.steamid
        = some ⟨76561198000000001, 39734273⟩ :=
  ⟨rfl, rfl, rfl, rfl, rfl,
   (web_login_success_finalize demoState demoState1 "u" "pw" "" "" "" "english" "sid"
      rsaTok loginTok [] respOK rfl rfl rfl rfl rfl).2.2.2.2.2.2 rfl⟩

/-- **C2**: a non-success response with `captcha_needed` stores the
response's `captcha_gid` verbatim and resets the stored captcha answer; with
`clear_password_field` the outcome is `CaptchaRequiredLoginIncorrect` and the
stored password is cleared, otherwise the outcome is `CaptchaRequired` and
the stored password keeps the value passed to `login`. -/
theorem captcha_needed_classification (st0 st1 : ClientState)
    (u p c e t lang sid : String)
    (rsaT : Transport RsaResponse) (loginT : Transport LoginResponse)
    (reqs : List Request) (resp : LoginResponse)
    (hlog : st0.logged_on = false)
    (hload : load_key { st0 with username := u, password := p } rsaT = .ok (st1, reqs))
    (hsend : send_login loginT = .ok resp)
    (hs : resp.success = false) (hc : resp.captcha_needed = true) :
    (login st0 u p c e t lang rsaT loginT sid).2.1.captcha_gid = resp.captcha_gid
    ∧ (login st0 u p c e t lang rsaT loginT sid).2.1.captcha_code = ""
    ∧ (resp.clear_password_field = true →
        (login st0 u p c e t lang rsaT loginT sid).1
            = .captchaRequiredLoginIncorrect resp.message
        ∧ (login st0 u p c e t lang rsaT loginT sid).2.1.password = "")
    ∧ (resp.clear_password_field = false →
        (login st0 u p c e t lang rsaT loginT sid).1 = .captchaRequired resp.message
        ∧ (login st0 u p c e t lang rsaT loginT sid).2.1.password = p) := by
  obtain ⟨-, hpw, -⟩ := load_key_frame _ _ _ _ hload
  rw [login_run st0 st1 u p c e t lang sid rsaT loginT reqs resp hlog hload hsend,
    classify_captcha_eq st1 resp lang sid (reqs ++ [Request.doLogin]) hs hc]
  by_cases hcl : resp.clear_password_field = true
  · simp [hcl]
  · simp only [Bool.not_eq_true] at hcl
    simp [hcl, hpw]

/-- Witness for **C2** at the spec's synthetic captcha response. -/
theorem captcha_needed_classification_witness :
    demoState.logged_on = false
    ∧ send_login (.response true (some respCaptcha)) = .ok respCaptcha
    ∧ respCaptcha.success = false
    ∧ respCaptcha.captcha_needed = true
    ∧ (login demoState "u" "pw" "" "" "" "english" rsaTok
        (.response true (some respCaptcha)) "sid").2.1.captcha_gid = 887987
    ∧ (login demoState "u" "pw" "" "" "" "english" rsaTok
        (.response true (some respCaptcha)) "sid").1 = .captchaRequired "please solve" :=
  ⟨rfl, rfl, rfl, rfl,
   (captcha_needed_classification demoState demoState1 "u" "pw" "" "" "" "english" "sid"
      rsaTok (.response true (some respCaptcha)) [] respCaptcha
      rfl rfl rfl rfl rfl).1,
   ((captcha_needed_classification demoState demoState1 "u" "pw" "" "" "" "english" "sid"
      rsaTok (.response true (some respCaptcha)) [] respCaptcha
      rfl rfl rfl rfl rfl).2.2.2 rfl).1⟩

lemma extract_steamids_short (s : String) (h1 : isdigit s = true)
    (h2 : 0 < strToNat s) (h3 : strToNat s < 2 ^ 32) :
    extract_steamids s
      = ((strToNat s : Int) + (STEAM64_BASE : Int), (strToNat s : Int)) := by
  simp only [extract_steamids]
  rw [if_pos h1, if_pos ⟨h2, h3⟩]

lemma extract_steamids_long (s : String) (h1 : isdigit s = true)
    (h2 : ¬(0 < strToNat s ∧ strToNat s < 2 ^ 32)) (h3 : strToNat s < 2 ^ 64) :
    extract_steamids s
      = ((strToNat s : Int), (strToNat s : Int) - (STEAM64_BASE : Int)) := by
  simp only [extract_steamids]
  rw [if_pos h1, if_neg h2, if_pos h3]

lemma steam64_base_eq : STEAM64_BASE = 76561197960265728 := rfl

/-- **C4**, amended. -/
theorem extract_steamids_roundtrip :
    (∀ s s2 : String, isdigit s = true → isdigit s2 = true →
      0 < strToNat s → strToNat s < 2 ^ 32 →
      strToNat s2 = strToNat s + STEAM64_BASE →
      extract_steamids s = ((strToNat s : Int) + (STEAM64_BASE : Int), (strToNat s : Int))
      ∧ extract_steamids s2
          = ((strToNat s : Int) + (STEAM64_BASE : Int), (strToNat s : Int)))
    ∧ (∀ s s2 : String, isdigit s = true → isdigit s2 = true →
      STEAM64_BASE < strToNat s → strToNat s < STEAM64_BASE + 2 ^ 32 →
      strToNat s2 = strToNat s - STEAM64_BASE →
      extract_steamids s
          = ((strToNat s : Int), (strToNat s : Int) - (STEAM64_BASE : Int))
      ∧ extract_steamids s2
          = ((strToNat s : Int), (strToNat s : Int) - (STEAM64_BASE : Int)))
    ∧ (∀ s : String, isdigit s = true → strToNat s < 2 ^ 64 →
      (extract_steamids s).1 = (extract_steamids s).2 + (STEAM64_BASE : Int)) := by
  have hB := steam64_base_eq
  refine ⟨?_, ?_, ?_⟩
  · intro s s2 h1 h1' hx0 hx32 hv2
    refine ⟨extract_steamids_short s h1 hx0 hx32, ?_⟩
    rw [extract_steamids_long s2 h1' (by omega) (by omega), hv2]
    simp only [Prod.mk.injEq]
    omega
  · intro s s2 h1 h1' hlo hhi hv2
    refine ⟨extract_steamids_long s h1 (by omega) (by omega), ?_⟩
    rw [extract_steamids_short s2 h1' (by omega) (by omega), hv2]
    simp only [Prod.mk.injEq]
    omega
  · intro s h1 h64
    by_cases h32 : 0 < strToNat s ∧ strToNat s < 2 ^ 32
    · rw [extract_steamids_short s h1 h32.1 h32.2]
    · rw [extract_steamids_long s h1 h32 h64]
      dsimp only
      omega

/-- Witness for **C4** (amended) at `X = 39734273`, `Y = X + STEAM64_BASE`. -/
theorem extract_steamids_roundtrip_witness :
    extract_steamids "39734273" = (76561198000000001, 39734273)
    ∧ extract_steamids "76561198000000001" = (76561198000000001, 39734273) := by
  have h := extract_steamids_roundtrip.1 "39734273" "76561198000000001"
    (by decide) (by decide) (by decide) (by decide) (by decide)
  have e1 : strToNat "39734273" = 39734273 := by decide
  constructor
  · rw [h.1, e1]
    decide
  · rw [h.2, e1]
    decide

/-- **C4** counterexample. -/
theorem extract_steamids_roundtrip_counterexample :
    (STEAM64_BASE : Int) ≤ 76561197960265728
    ∧ extract_steamids "76561197960265728" = (76561197960265728, 0)
    ∧ extract_steamids "0" = (0, -76561197960265728)
    ∧ (0 : Int) ≠ 76561197960265728 := by
  refine ⟨by decide, by decide, by decide, by decide⟩

/-- **C7**: a transport-level failure — network error, non-2xx status, or a
body that is not valid JSON — on the RSA-key fetch or on the login submission
surfaces as `HTTPError` and never as any classification outcome: the
low-level helpers return the error, and `login` returns `httpError` without
entering classification, for both failure points. -/
theorem transport_failure_is_http_error :
    (∀ t : Transport LoginResponse, t.isFailure = true → send_login t = .error ())
    ∧ (∀ t : Transport RsaResponse, t.isFailure = true → get_rsa_key t = .error ())
    ∧ (∀ (st0 : ClientState) (u p c e tw lang sid : String)
        (rsaT : Transport RsaResponse) (loginT : Transport LoginResponse),
        st0.logged_on = false → st0.key = none → rsaT.isFailure = true →
        login st0 u p c e tw lang rsaT loginT sid
          = (.httpError, { st0 with username := u, password := p }, [Request.getRsaKey]))
    ∧ (∀ (st0 st1 : ClientState) (u p c e tw lang sid : String)
        (rsaT : Transport RsaResponse) (loginT : Transport LoginResponse)
        (reqs : List Request),
        st0.logged_on = false →
        load_key { st0 with username := u, password := p } rsaT = .ok (st1, reqs) →
        loginT.isFailure = true →
        login st0 u p c e tw lang rsaT loginT sid
          = (.httpError, st1, reqs ++ [Request.doLogin])) := by
  have hsend : ∀ t : Transport LoginResponse, t.isFailure = true → send_login t = .error () := by
    intro t ht
    cases t with
    | netError => rfl
    | response ok body =>
      cases ok <;> cases body <;> simp_all [Transport.isFailure, send_login]
  have hrsa : ∀ t : Transport RsaResponse, t.isFailure = true → get_rsa_key t = .error () := by
    intro t ht
    cases t with
    | netError => rfl
    | response ok body =>
      cases ok <;> cases body <;> simp_all [Transport.isFailure, get_rsa_key]
  refine ⟨hsend, hrsa, ?_, ?_⟩
  · intro st0 u p c e tw lang sid rsaT loginT hlog hkey ht
    have hl : load_key { st0 with username := u, password := p } rsaT = .error () := by
      unfold load_key
      rw [hrsa rsaT ht]
      simp [hkey]
    rw [hlog] at hl
    unfold login
    simp only [hlog, hl, Bool.false_eq_true, if_false]
  · intro st0 st1 u p c e tw lang sid rsaT loginT reqs hlog hload ht
    rw [hlog] at hload
    unfold login
    simp only [hlog, hload, hsend loginT ht, Bool.false_eq_true, if_false]

/-- Witness for **C7** at concrete failing transports: a non-2xx RSA-key
response and a network error on the login submission. -/
theorem transport_failure_is_http_error_witness :
    (Transport.response false none : Transport RsaResponse).isFailure = true
    ∧ (Transport.netError : Transport LoginResponse).isFailure = true
    ∧ login { demoState with key := none } "u" "pw" "" "" "" "english"
        (.response false none) loginTok "sid"
      = (.httpError, { demoState with key := none, username := "u", password := "pw" },
         [Request.getRsaKey])
    ∧ login demoState "u" "pw" "" "" "" "english" rsaTok .netError "sid"
      = (.httpError, demoState1, [Request.doLogin]) :=
  ⟨rfl, rfl,
   transport_failure_is_http_error.2.2.1 { demoState with key := none }
     "u" "pw" "" "" "" "english" "sid" (.response false none) loginTok rfl rfl rfl,
   transport_failure_is_http_error.2.2.2 demoState demoState1
     "u" "pw" "" "" "" "english" "sid" rsaTok .netError [] rfl rfl rfl⟩

lemma classify_incorrect_eq (st : ClientState) (resp : LoginResponse)
    (lang sid : String) (reqs : List Request)
    (hs : resp.success = false) (hc : resp.captcha_needed = false)
    (he : resp.emailauth_needed = false) (ht : resp.requires_twofactor = false)
    (hm : strContains resp.message "too many login failures" = false) :
    login_classify st resp lang sid reqs
      = (.loginIncorrect resp.message, { st with password := "" }, reqs) := by
  unfold login_classify
  simp [hs, hc, he, ht, hm]

/-- **C9**, amended: the stored password is empty after a successful login
finalize, and it is cleared before `CaptchaRequiredLoginIncorrect` and before
`LoginIncorrect` are raised; however, a `login` call made while the client is
already authenticated first overwrites the stored password with the supplied
argument and then returns without clearing it, so an authenticated client's
stored password equals the argument of the last `login` call rather than
staying empty. -/
theorem password_clearing_policy :
    (∀ (st0 st1 : ClientState) (u p c e tw lang sid : String)
        (rsaT : Transport RsaResponse) (loginT : Transport LoginResponse)
        (reqs : List Request) (resp : LoginResponse),
        st0.logged_on = false →
        load_key { st0 with username := u, password := p } rsaT = .ok (st1, reqs) →
        send_login loginT = .ok resp →
        resp.success = true → resp.login_complete = true →
        (login st0 u p c e tw lang rsaT loginT sid).2.1.password = "")
    ∧ (∀ (st0 st1 : ClientState) (u p c e tw lang sid : String)
        (rsaT : Transport RsaResponse) (loginT : Transport LoginResponse)
        (reqs : List Request) (resp : LoginResponse),
        st0.logged_on = false →
        load_key { st0 with username := u, password := p } rsaT = .ok (st1, reqs) →
        send_login loginT = .ok resp →
        resp.success = false → resp.captcha_needed = true →
        resp.clear_password_field = true →
        (login st0 u p c e tw lang rsaT loginT sid).1
            = .captchaRequiredLoginIncorrect resp.message
        ∧ (login st0 u p c e tw lang rsaT loginT sid).2.1.password = "")
    ∧ (∀ (st0 st1 : ClientState) (u p c e tw lang sid : String)
        (rsaT : Transport RsaResponse) (loginT : Transport LoginResponse)
        (reqs : List Request) (resp : LoginResponse),
        st0.logged_on = false →
        load_key { st0 with username := u, password := p } rsaT = .ok (st1, reqs) →
        send_login loginT = .ok resp →
        resp.success = false → resp.captcha_needed = false →
        resp.emailauth_needed = false → resp.requires_twofactor = false →
        strContains resp.message "too many login failures" = false →
        (login st0 u p c e tw lang rsaT loginT sid).1 = .loginIncorrect resp.message
        ∧ (login st0 u p c e tw lang rsaT loginT sid).2.1.password = "")
    ∧ (∀ (st0 : ClientState) (u p c e tw lang sid : String)
        (rsaT : Transport RsaResponse) (loginT : Transport LoginResponse),
        st0.logged_on = true →
        (login st0 u p c e tw lang rsaT loginT sid).2.1.password = p) := by
  refine ⟨?_, ?_, ?_, ?_⟩
  · intro st0 st1 u p c e tw lang sid rsaT loginT reqs resp hlog hload hsend hs hl
    rw [login_run st0 st1 u p c e tw lang sid rsaT loginT reqs resp hlog hload hsend,
      classify_success_eq st1 resp lang sid (reqs ++ [Request.doLogin]) hs hl]
  · intro st0 st1 u p c e tw lang sid rsaT loginT reqs resp hlog hload hsend hs hc hcl
    rw [login_run st0 st1 u p c e tw lang sid rsaT loginT reqs resp hlog hload hsend,
      classify_captcha_eq st1 resp lang sid (reqs ++ [Request.doLogin]) hs hc]
    simp [hcl]
  · intro st0 st1 u p c e tw lang sid rsaT loginT reqs resp hlog hload hsend hs hc he ht hm
    rw [login_run st0 st1 u p c e tw lang sid rsaT loginT reqs resp hlog hload hsend,
      classify_incorrect_eq st1 resp lang sid (reqs ++ [Request.doLogin]) hs hc he ht hm]
    exact ⟨rfl, rfl⟩
  · intro st0 u p c e tw lang sid rsaT loginT hlog
    unfold login
    simp [hlog]

/-- Witness for **C9** (amended). -/
theorem password_clearing_policy_witness :
    respOK.success = true
    ∧ (login demoState "u" "pw" "" "" "" "english" rsaTok loginTok "sid").2.1.password = ""
    ∧ ({ demoState with logged_on := true } : ClientState).logged_on = true
    ∧ (login { demoState with logged_on := true } "u" "pw2" "" "" "" "english"
        rsaTok loginTok "sid").2.1.password = "pw2" :=
  ⟨rfl,
   password_clearing_policy.1 demoState demoState1 "u" "pw" "" "" "" "english" "sid"
     rsaTok loginTok [] respOK rfl rfl rfl rfl rfl,
   rfl,
   password_clearing_policy.2.2.2 { demoState with logged_on := true }
     "u" "pw2" "" "" "" "english" "sid" rsaTok loginTok rfl⟩

/-- **C9** counterexample: an authenticated client with an empty stored
password calls `login` again with a fresh password; the call returns the
session (`Success`) but leaves the supplied password stored, contradicting
the claim that every subsequent operation preserves the empty password. -/
theorem password_retained_when_already_authenticated :
    ({ demoState with logged_on := true, password := "" } : ClientState).logged_on = true
    ∧ ({ demoState with logged_on := true, password := "" } : ClientState).password = ""
    ∧ (login { demoState with logged_on := true, password := "" } "u" "secret" "" "" ""
        "english" .netError .netError "sid").1 = .success
    ∧ (login { demoState with logged_on := true, password := "" } "u" "secret" "" "" ""
        "english" .netError .netError "sid").2.1.password = "secret"
    ∧ "secret" ≠ "" := by
  decide

lemma hexlify_length (bytes : List Nat) : (hexlify bytes).length = 2 * bytes.length := by
  induction bytes with
  | nil => rfl
  | cons b tl ih =>
    simp only [hexlify, List.foldr_cons, List.length_cons] at *
    omega

lemma hexChar_lower : ∀ k : Nat, k < 16 → isLowerHexChar (hexChar k) = true := by
  decide

lemma mem_hexlify (bytes : List Nat) (c : Char) (hc : c ∈ hexlify bytes) :
    ∃ b ∈ bytes, c = hexChar (b / 16 % 16) ∨ c = hexChar (b % 16) := by
  induction bytes with
  | nil => cases hc
  | cons b tl ih =>
    simp only [hexlify, List.foldr_cons, List.mem_cons] at hc
    rcases hc with h | h | h
    · exact ⟨b, List.mem_cons_self b tl, Or.inl h⟩
    · exact ⟨b, List.mem_cons_self b tl, Or.inr h⟩
    · obtain ⟨b', hb', hor⟩ := ih h
      exact ⟨b', List.mem_cons_of_mem b hb', hor⟩

/-- **C6**: for any 20-byte SHA-1 digest of the 32 random bytes, the session
identifier produced by `generate_session_id` consists of the first 32
hexadecimal characters, lowercase, of the digest's hex expansion — in
particular it is exactly 32 lowercase hexadecimal characters long. -/
theorem generate_session_id_hex (digest : List Nat) (h20 : digest.length = 20) :
    generate_session_id digest = ⟨(hexlify digest).take 32⟩
    ∧ (generate_session_id digest).length = 32
    ∧ ∀ c ∈ (generate_session_id digest).data, isLowerHexChar c = true := by
  refine ⟨rfl, ?_, ?_⟩
  · show ((hexlify digest).take 32).length = 32
    rw [List.length_take, hexlify_length, h20]
    omega
  · intro c hc
    have hc' : c ∈ hexlify digest := List.take_subset 32 _ hc
    obtain ⟨b, -, hor⟩ := mem_hexlify digest c hc'
    rcases hor with h | h <;> rw [h] <;> exact hexChar_lower _ (Nat.mod_lt _ (by norm_num))

/-- Witness for **C6** at a concrete 20-byte digest. -/
theorem generate_session_id_hex_witness :
    ([222, 173, 190, 239, 0, 1, 2, 3, 250, 251, 252, 253, 254, 255, 16, 32, 64,
      128, 200, 100] : List Nat).length = 20
    ∧ (generate_session_id
        [222, 173, 190, 239, 0, 1, 2, 3, 250, 251, 252, 253, 254, 255, 16, 32, 64,
          128, 200, 100]).length = 32 :=
  ⟨rfl,
   (generate_session_id_hex
     [222, 173, 190, 239, 0, 1, 2, 3, 250, 251, 252, 253, 254, 255, 16, 32, 64,
       128, 200, 100] rfl).2.1⟩

/-- A mobile-flavor success response: `oauth` carries
`{"steamid":"76561198000000002","oauth_token":"abc"}` while
`transfer_parameters.steamid` carries a different identity, so the two
finalize variants are distinguishable. -/
def respMobile : LoginResponse :=
  ⟨true, true, false, -1, false, false, "", "", false, "", "76561198000000003",
    some ⟨"76561198000000002", "abc"⟩⟩

/-- **C3** (evaluation at the failing input): because of Python private-name
mangling, `MobileClient`'s inherited `login` runs `_WebClient__finalize_login`
and never the `_MobileClient` variant: on the mobile success payload it takes
the identity from `transfer_parameters.steamid` (`76561198000000003`) and
leaves `oauth_token` unset, whereas `_MobileClient__finalize_login` on the
same payload would extract `steamid = 76561198000000002` and
`oauth_token = "abc"` from the `oauth` JSON as the claim describes. -/
theorem mobile_login_skips_oauth_extraction :
    (mobile_login demoState "u" "pw" "" "" "" "english" rsaTok
        (.response true (some respMobile)) "sid").1 = .success
    ∧ (mobile_login demoState "u" "pw" "" "" "" "english" rsaTok
        (.response true (some respMobile)) "sid").2.1.oauth_token = none
    ∧ (mobile_login demoState "u" "pw" "" "" "" "english" rsaTok
        (.response true (some respMobile)) "sid").2.1.steamid
      = some ⟨76561198000000003, 39734275⟩
    ∧ finalize_login_mobile demoState respMobile
      = some { demoState with
                steamid := some ⟨76561198000000002, 39734274⟩,
                oauth_token := some "abc" }
    ∧ (76561198000000002 : Int) ≠ 76561198000000003 := by
  decide

/-- Arguments of a `cli_login` iteration before any prompt fires. -/
def cliArgs0 : CliArgs := ⟨"u0", "p0", "c0", "e0", "t0"⟩

/-- Distinct prompt answers, to make each prompt observable. -/
def cliPrompts0 : CliPrompts := ⟨"U", "P", "C", "E", "T"⟩

/-- **C8**, amended: the loop propagates `TooManyLoginFailures` and
`HTTPError` unhandled, terminates on `Success`; on `CaptchaRequired` it
prompts for a captcha answer and retries; on `CaptchaRequiredLoginIncorrect`
— caught by the earlier `LoginIncorrect` handler, since the exception
subclasses `LoginIncorrect` — it prompts for a fresh username/password pair
(not a captcha answer) and retries; on `EmailCodeRequired` it prompts for an
email code and clears the pending two-factor code; on `TwoFactorCodeRequired`
it prompts for a two-factor code and clears the pending email code; on
`LoginIncorrect` it prompts for a fresh username/password pair. -/
theorem cli_login_step_behavior (a : CliArgs) (p : CliPrompts) (m : String) :
    cli_step a .success p = .done
    ∧ cli_step a .httpError p = .propagate .httpError
    ∧ cli_step a (.tooManyLoginFailures m) p = .propagate (.tooManyLoginFailures m)
    ∧ cli_step a (.captchaRequired m) p = .retry { a with captcha := p.captcha }
    ∧ cli_step a (.captchaRequiredLoginIncorrect m) p
        = .retry { a with username := p.username, password := p.password }
    ∧ cli_step a (.emailCodeRequired m) p
        = .retry { a with email_code := p.email_code, twofactor_code := "" }
    ∧ cli_step a (.twoFactorCodeRequired m) p
        = .retry { a with email_code := "", twofactor_code := p.twofactor_code }
    ∧ cli_step a (.loginIncorrect m) p
        = .retry { a with username := p.username, password := p.password } :=
  ⟨rfl, rfl, rfl, rfl, rfl, rfl, rfl, rfl⟩

/-- **C8** counterexample: on `CaptchaRequiredLoginIncorrect` the loop does
not prompt for a captcha answer — it reruns with the prompted username and
password and the captcha argument unchanged. -/
theorem cli_step_captcha_invalid_not_captcha_prompt :
    cli_step cliArgs0 (.captchaRequiredLoginIncorrect "msg") cliPrompts0
      = .retry ⟨"U", "P", "c0", "e0", "t0"⟩
    ∧ cli_step cliArgs0 (.captchaRequiredLoginIncorrect "msg") cliPrompts0
      ≠ .retry { cliArgs0 with captcha := cliPrompts0.captcha } := by
  decide

lemma mem_set_self (jar : CookieJar) (n v d : String) (s : Bool) :
    (⟨n, v, d, s⟩ : Cookie) ∈ CookieJar.set jar n v d s := by
  unfold CookieJar.set
  exact List.mem_append_right _ (List.mem_singleton.mpr rfl)

lemma mem_set_of_mem (jar : CookieJar) (n v d : String) (s : Bool) (c : Cookie)
    (hc : c ∈ jar) (h : ¬(c.name = n ∧ c.domain = d)) :
    c ∈ CookieJar.set jar n v d s := by
  unfold CookieJar.set
  refine List.mem_append_left _ ?_
  rw [List.mem_filter]
  refine ⟨hc, ?_⟩
  simp only [Bool.not_eq_true', Bool.and_eq_false_iff, beq_eq_false_iff_ne, ne_eq]
  tauto

lemma mem_domains_fold_self (acc : CookieJar) (nm vl : String) (sc : Bool)
    (d : String) (hd : d ∈ loginDomains) :
    (⟨nm, vl, d, sc⟩ : Cookie)
      ∈ loginDomains.foldl (fun a dd => CookieJar.set a nm vl dd sc) acc := by
  simp only [loginDomains, List.mem_cons, List.not_mem_nil, or_false] at hd
  simp only [loginDomains, List.foldl_cons, List.foldl_nil]
  rcases hd with h | h | h <;> subst h
  · refine mem_set_of_mem _ _ _ _ _ _ (mem_set_of_mem _ _ _ _ _ _ (mem_set_self _ _ _ _ _) ?_) ?_
    all_goals simp
  · refine mem_set_of_mem _ _ _ _ _ _ (mem_set_self _ _ _ _ _) ?_
    simp
  · exact mem_set_self _ _ _ _ _

lemma mem_domains_fold_of_ne (acc : CookieJar) (nm vl : String) (sc : Bool)
    (x : Cookie) (hx : x ∈ acc) (hne : x.name ≠ nm) :
    x ∈ loginDomains.foldl (fun a dd => CookieJar.set a nm vl dd sc) acc := by
  simp only [loginDomains, List.foldl_cons, List.foldl_nil]
  refine mem_set_of_mem _ _ _ _ _ _
    (mem_set_of_mem _ _ _ _ _ _ (mem_set_of_mem _ _ _ _ _ _ hx ?_) ?_) ?_
  all_goals exact fun hcon => hne hcon.1

lemma copy_fold_preserve (l : List Cookie) (acc : CookieJar) (x : Cookie)
    (hx : x ∈ acc) (hl : ∀ c ∈ l, c.name ≠ x.name) :
    x ∈ List.foldl
        (fun acc2 c => loginDomains.foldl
          (fun a dd => CookieJar.set a c.name c.value dd c.secure) acc2)
        acc l := by
  induction l generalizing acc with
  | nil => exact hx
  | cons hd tl ih =>
    simp only [List.foldl_cons]
    refine ih _ ?_ (fun c hc => hl c (List.mem_cons_of_mem hd hc))
    exact mem_domains_fold_of_ne _ _ _ _ _ hx
      (Ne.symm (hl hd (List.mem_cons_self hd tl)))

lemma copy_fold_present (l1 l2 : List Cookie) (c : Cookie) (acc : CookieJar)
    (hl2 : ∀ c' ∈ l2, c'.name ≠ c.name) (d : String) (hd : d ∈ loginDomains) :
    (⟨c.name, c.value, d, c.secure⟩ : Cookie)
      ∈ List.foldl
          (fun acc2 c' => loginDomains.foldl
            (fun a dd => CookieJar.set a c'.name c'.value dd c'.secure) acc2)
          acc (l1 ++ c :: l2) := by
  rw [List.foldl_append, List.foldl_cons]
  refine copy_fold_preserve l2 _ _ ?_ (fun c' hc' => hl2 c' hc')
  exact mem_domains_fold_self _ _ _ _ d hd

lemma mem_copyCookies (jar : CookieJar) (l1 l2 : List Cookie) (c : Cookie)
    (hsplit : jar = l1 ++ c :: l2)
    (hl2 : ∀ c' ∈ l2, c'.name ≠ c.name) (d : String) (hd : d ∈ loginDomains) :
    (⟨c.name, c.value, d, c.secure⟩ : Cookie) ∈ copyCookies jar := by
  unfold copyCookies
  rw [hsplit]
  exact copy_fold_present l1 l2 c _ hl2 d hd

lemma mem_setLoginCookies_of_mem (jar : CookieJar) (lang sid : String) (x : Cookie)
    (hx : x ∈ jar)
    (h1 : x.name ≠ "Steam_Language") (h2 : x.name ≠ "birthtime")
    (h3 : x.name ≠ "sessionid") :
    x ∈ setLoginCookies jar lang sid := by
  unfold setLoginCookies
  simp only [loginDomains, List.foldl_cons, List.foldl_nil]
  exact
    (mem_set_of_mem _ _ _ _ _ _ (mem_set_of_mem _ _ _ _ _ _ (mem_set_of_mem _ _ _ _ _ _ (mem_set_of_mem _ _ _ _ _ _ (mem_set_of_mem _ _ _ _ _ _ (mem_set_of_mem _ _ _ _ _ _ (mem_set_of_mem _ _ _ _ _ _ (mem_set_of_mem _ _ _ _ _ _ (mem_set_of_mem _ _ _ _ _ _ hx (fun hc => h1 hc.1)) (fun hc => h2 hc.1)) (fun hc => h3 hc.1)) (fun hc => h1 hc.1)) (fun hc => h2 hc.1)) (fun hc => h3 hc.1)) (fun hc => h1 hc.1)) (fun hc => h2 hc.1)) (fun hc => h3 hc.1))

lemma mem_setLoginCookies_language (jar : CookieJar) (lang sid : String)
    (d : String) (hd : d ∈ loginDomains) :
    (⟨"Steam_Language", lang, d, false⟩ : Cookie) ∈ setLoginCookies jar lang sid := by
  unfold setLoginCookies
  simp only [loginDomains, List.mem_cons, List.not_mem_nil, or_false] at hd
  simp only [loginDomains, List.foldl_cons, List.foldl_nil]
  rcases hd with h | h | h <;> subst h
  · exact
      (mem_set_of_mem _ _ _ _ _ _ (mem_set_of_mem _ _ _ _ _ _ (mem_set_of_mem _ _ _ _ _ _ (mem_set_of_mem _ _ _ _ _ _ (mem_set_of_mem _ _ _ _ _ _ (mem_set_of_mem _ _ _ _ _ _ (mem_set_of_mem _ _ _ _ _ _ (mem_set_of_mem _ _ _ _ _ _ (mem_set_self _ _ _ _ _) (by show ¬("Steam_Language" = "birthtime" ∧ "store.steampowered.com" = "store.steampowered.com"); decide)) (by show ¬("Steam_Language" = "sessionid" ∧ "store.steampowered.com" = "store.steampowered.com"); decide)) (by show ¬("Steam_Language" = "Steam_Language" ∧ "store.steampowered.com" = "help.steampowered.com"); decide)) (by show ¬("Steam_Language" = "birthtime" ∧ "store.steampowered.com" = "help.steampowered.com"); decide)) (by show ¬("Steam_Language" = "sessionid" ∧ "store.steampowered.com" = "help.steampowered.com"); decide)) (by show ¬("Steam_Language" = "Steam_Language" ∧ "store.steampowered.com" = "steamcommunity.com"); decide)) (by show ¬("Steam_Language" = "birthtime" ∧ "store.steampowered.com" = "steamcommunity.com"); decide)) (by show ¬("Steam_Language" = "sessionid" ∧ "store.steampowered.com" = "steamcommunity.com"); decide))
  · exact
      (mem_set_of_mem _ _ _ _ _ _ (mem_set_of_mem _ _ _ _ _ _ (mem_set_of_mem _ _ _ _ _ _ (mem_set_of_mem _ _ _ _ _ _ (mem_set_of_mem _ _ _ _ _ _ (mem_set_self _ _ _ _ _) (by show ¬("Steam_Language" = "birthtime" ∧ "help.steampowered.com" = "help.steampowered.com"); decide)) (by show ¬("Steam_Language" = "sessionid" ∧ "help.steampowered.com" = "help.steampowered.com"); decide)) (by show ¬("Steam_Language" = "Steam_Language" ∧ "help.steampowered.com" = "steamcommunity.com"); decide)) (by show ¬("Steam_Language" = "birthtime" ∧ "help.steampowered.com" = "steamcommunity.com"); decide)) (by show ¬("Steam_Language" = "sessionid" ∧ "help.steampowered.com" = "steamcommunity.com"); decide))
  · exact
      (mem_set_of_mem _ _ _ _ _ _ (mem_set_of_mem _ _ _ _ _ _ (mem_set_self _ _ _ _ _) (by show ¬("Steam_Language" = "birthtime" ∧ "steamcommunity.com" = "steamcommunity.com"); decide)) (by show ¬("Steam_Language" = "sessionid" ∧ "steamcommunity.com" = "steamcommunity.com"); decide))

lemma mem_setLoginCookies_birthtime (jar : CookieJar) (lang sid : String)
    (d : String) (hd : d ∈ loginDomains) :
    (⟨"birthtime", "-3333", d, false⟩ : Cookie) ∈ setLoginCookies jar lang sid := by
  unfold setLoginCookies
  simp only [loginDomains, List.mem_cons, List.not_mem_nil, or_false] at hd
  simp only [loginDomains, List.foldl_cons, List.foldl_nil]
  rcases hd with h | h | h <;> subst h
  · exact
      (mem_set_of_mem _ _ _ _ _ _ (mem_set_of_mem _ _ _ _ _ _ (mem_set_of_mem _ _ _ _ _ _ (mem_set_of_mem _ _ _ _ _ _ (mem_set_of_mem _ _ _ _ _ _ (mem_set_of_mem _ _ _ _ _ _ (mem_set_of_mem _ _ _ _ _ _ (mem_set_self _ _ _ _ _) (by show ¬("birthtime" = "sessionid" ∧ "store.steampowered.com" = "store.steampowered.com"); decide)) (by show ¬("birthtime" = "Steam_Language" ∧ "store.steampowered.com" = "help.steampowered.com"); decide)) (by show ¬("birthtime" = "birthtime" ∧ "store.steampowered.com" = "help.steampowered.com"); decide)) (by show ¬("birthtime" = "sessionid" ∧ "store.steampowered.com" = "help.steampowered.com"); decide)) (by show ¬("birthtime" = "Steam_Language" ∧ "store.steampowered.com" = "steamcommunity.com"); decide)) (by show ¬("birthtime" = "birthtime" ∧ "store.steampowered.com" = "steamcommunity.com"); decide)) (by show ¬("birthtime" = "sessionid" ∧ "store.steampowered.com" = "steamcommunity.com"); decide))
  · exact
      (mem_set_of_mem _ _ _ _ _ _ (mem_set_of_mem _ _ _ _ _ _ (mem_set_of_mem _ _ _ _ _ _ (mem_set_of_mem _ _ _ _ _ _ (mem_set_self _ _ _ _ _) (by show ¬("birthtime" = "sessionid" ∧ "help.steampowered.com" = "help.steampowered.com"); decide)) (by show ¬("birthtime" = "Steam_Language" ∧ "help.steampowered.com" = "steamcommunity.com"); decide)) (by show ¬("birthtime" = "birthtime" ∧ "help.steampowered.com" = "steamcommunity.com"); decide)) (by show ¬("birthtime" = "sessionid" ∧ "help.steampowered.com" = "steamcommunity.com"); decide))
  · exact
      (mem_set_of_mem _ _ _ _ _ _ (mem_set_self _ _ _ _ _) (by show ¬("birthtime" = "sessionid" ∧ "steamcommunity.com" = "steamcommunity.com"); decide))

lemma mem_setLoginCookies_sessionid (jar : CookieJar) (lang sid : String)
    (d : String) (hd : d ∈ loginDomains) :
    (⟨"sessionid", sid, d, false⟩ : Cookie) ∈ setLoginCookies jar lang sid := by
  unfold setLoginCookies
  simp only [loginDomains, List.mem_cons, List.not_mem_nil, or_false] at hd
  simp only [loginDomains, List.foldl_cons, List.foldl_nil]
  rcases hd with h | h | h <;> subst h
  · exact
      (mem_set_of_mem _ _ _ _ _ _ (mem_set_of_mem _ _ _ _ _ _ (mem_set_of_mem _ _ _ _ _ _ (mem_set_of_mem _ _ _ _ _ _ (mem_set_of_mem _ _ _ _ _ _ (mem_set_of_mem _ _ _ _ _ _ (mem_set_self _ _ _ _ _) (by show ¬("sessionid" = "Steam_Language" ∧ "store.steampowered.com" = "help.steampowered.com"); decide)) (by show ¬("sessionid" = "birthtime" ∧ "store.steampowered.com" = "help.steampowered.com"); decide)) (by show ¬("sessionid" = "sessionid" ∧ "store.steampowered.com" = "help.steampowered.com"); decide)) (by show ¬("sessionid" = "Steam_Language" ∧ "store.steampowered.com" = "steamcommunity.com"); decide)) (by show ¬("sessionid" = "birthtime" ∧ "store.steampowered.com" = "steamcommunity.com"); decide)) (by show ¬("sessionid" = "sessionid" ∧ "store.steampowered.com" = "steamcommunity.com"); decide))
  · exact
      (mem_set_of_mem _ _ _ _ _ _ (mem_set_of_mem _ _ _ _ _ _ (mem_set_of_mem _ _ _ _ _ _ (mem_set_self _ _ _ _ _) (by show ¬("sessionid" = "Steam_Language" ∧ "help.steampowered.com" = "steamcommunity.com"); decide)) (by show ¬("sessionid" = "birthtime" ∧ "help.steampowered.com" = "steamcommunity.com"); decide)) (by show ¬("sessionid" = "sessionid" ∧ "help.steampowered.com" = "steamcommunity.com"); decide))
  · exact
      (mem_set_self _ _ _ _ _)


/-- **C5**, amended: after a successful login finalize, every cookie of the
pre-login jar whose name is none of the three injected names and that is the
last cookie in the jar bearing its name is present on each of the three fixed
domains with identical name, value and secure flag; and each of the three
domains holds `Steam_Language = language`, `birthtime = '-3333'` and
`sessionid = ` the generated session identifier. -/
theorem login_success_cookie_replication (st0 st1 : ClientState)
    (u p c e tw lang sid : String)
    (rsaT : Transport RsaResponse) (loginT : Transport LoginResponse)
    (reqs : List Request) (resp : LoginResponse)
    (hlog : st0.logged_on = false)
    (hload : load_key { st0 with username := u, password := p } rsaT = .ok (st1, reqs))
    (hsend : send_login loginT = .ok resp)
    (hs : resp.success = true) (hl : resp.login_complete = true) :
    (∀ (ck : Cookie) (l1 l2 : List Cookie),
      st0.cookies = l1 ++ ck :: l2 →
      (∀ c' ∈ l2, c'.name ≠ ck.name) →
      ck.name ≠ "Steam_Language" → ck.name ≠ "birthtime" → ck.name ≠ "sessionid" →
      ∀ d ∈ loginDomains,
        (⟨ck.name, ck.value, d, ck.secure⟩ : Cookie)
          ∈ (login st0 u p c e tw lang rsaT loginT sid).2.1.cookies)
    ∧ (∀ d ∈ loginDomains,
        (⟨"Steam_Language", lang, d, false⟩ : Cookie)
            ∈ (login st0 u p c e tw lang rsaT loginT sid).2.1.cookies
        ∧ (⟨"birthtime", "-3333", d, false⟩ : Cookie)
            ∈ (login st0 u p c e tw lang rsaT loginT sid).2.1.cookies
        ∧ (⟨"sessionid", sid, d, false⟩ : Cookie)
            ∈ (login st0 u p c e tw lang rsaT loginT sid).2.1.cookies) := by
  obtain ⟨-, -, -, -, -, -, -, -, hck, -⟩ := load_key_frame _ _ _ _ hload
  have hcook : (login st0 u p c e tw lang rsaT loginT sid).2.1.cookies
      = setLoginCookies (copyCookies st0.cookies) lang sid := by
    rw [login_run st0 st1 u p c e tw lang sid rsaT loginT reqs resp hlog hload hsend,
      classify_success_eq st1 resp lang sid (reqs ++ [Request.doLogin]) hs hl]
    show setLoginCookies (copyCookies st1.cookies) lang sid
      = setLoginCookies (copyCookies st0.cookies) lang sid
    rw [show st1.cookies = st0.cookies from hck]
  constructor
  · intro ck l1 l2 hsplit hlast hn1 hn2 hn3 d hd
    rw [hcook]
    exact mem_setLoginCookies_of_mem _ lang sid _
      (mem_copyCookies st0.cookies l1 l2 ck hsplit hlast d hd) hn1 hn2 hn3
  · intro d hd
    rw [hcook]
    exact ⟨mem_setLoginCookies_language _ lang sid d hd,
      mem_setLoginCookies_birthtime _ lang sid d hd,
      mem_setLoginCookies_sessionid _ lang sid d hd⟩

/-- Witness for **C5** (amended) at a concrete jar with one prior cookie. -/
theorem login_success_cookie_replication_witness :
    (⟨"steamLoginSecure", "tok", "store.steampowered.com", true⟩ : Cookie)
      ∈ (login demoState "u" "pw" "" "" "" "english" rsaTok loginTok "sid").2.1.cookies
    ∧ (⟨"sessionid", "sid", "steamcommunity.com", false⟩ : Cookie)
      ∈ (login demoState "u" "pw" "" "" "" "english" rsaTok loginTok "sid").2.1.cookies :=
  ⟨(login_success_cookie_replication demoState demoState1 "u" "pw" "" "" "" "english"
      "sid" rsaTok loginTok [] respOK rfl rfl rfl rfl rfl).1
      ⟨"steamLoginSecure", "tok", "steamcommunity.com", true⟩ [] [] rfl
      (by simp) (by decide) (by decide) (by decide) "store.steampowered.com" (by decide),
   ((login_success_cookie_replication demoState demoState1 "u" "pw" "" "" "" "english"
      "sid" rsaTok loginTok [] respOK rfl rfl rfl rfl rfl).2
      "steamcommunity.com" (by decide)).2.2⟩

/-- The client of the **C5** counterexample: its jar already holds a
`sessionid` cookie. -/
def stC5 : ClientState :=
  { demoState with cookies := [⟨"sessionid", "old", "other.example", false⟩] }

/-- **C5** counterexample: after a successful login finalize, the session
still holds its pre-login `sessionid` cookie (on its original domain), but
that cookie's name/value pair is *not* present on the three fixed domains —
the final `sessionid` write overrode the replicated copy — refuting "every
cookie held by the session is present with identical name, value and secure
flag" on the fixed domains. -/
theorem cookie_replication_counterexample :
    (login stC5 "u" "pw" "" "" "" "english" rsaTok loginTok "newsid").1 = .success
    ∧ (⟨"sessionid", "old", "other.example", false⟩ : Cookie)
        ∈ (login stC5 "u" "pw" "" "" "" "english" rsaTok loginTok "newsid").2.1.cookies
    ∧ (⟨"sessionid", "old", "store.steampowered.com", false⟩ : Cookie)
        ∉ (login stC5 "u" "pw" "" "" "" "english" rsaTok loginTok "newsid").2.1.cookies
    ∧ (⟨"sessionid", "newsid", "store.steampowered.com", false⟩ : Cookie)
        ∈ (login stC5 "u" "pw" "" "" "" "english" rsaTok loginTok "newsid").2.1.cookies := by
  decide


end PySteam
